import Mathlib

/-
A shallow embedding of `src/roaddashboard/dashboard.py` (RoadDashboard):
widgets wrapping pluggable data sources, dashboards grouping widgets with a
grid layout, a fluent builder, and a process-wide manager registry.

Modelling conventions:
* Python `datetime` instants and second counts are modelled as `Int`
  (`Time`); every operation that reads the wall clock takes `now : Time`
  explicitly.
* A widget's zero-argument `data_source` callable is modelled by the outcome
  of invoking it: `Except.error e` models the callable raising an exception
  whose string form is `e`; `Except.ok v` models it returning (or
  asynchronously resolving to) `v`.
* Python dicts are insertion-ordered association lists; `dictInsert` follows
  Python assignment semantics (an existing key keeps its position, a new key
  is appended at the end).
* Mutation of `self` is modelled by returning the updated object alongside
  the Python return value.
-/

namespace RoadDashboard

/-- Values produced by data sources and stored in option bags (models Python
`Any`, with `vnone` for Python `None`). -/
inductive Val where
  | vnone
  | vint (n : Int)
  | vstr (s : String)
  deriving DecidableEq

/-- Outcome of invoking a widget's zero-argument `data_source` callable. -/
abbrev DataSource := Except String Val

instance : DecidableEq DataSource := fun a b =>
  match a, b with
  | .ok x, .ok y => if h : x = y then .isTrue (by rw [h]) else .isFalse (by simp [h])
  | .ok _, .error _ => .isFalse (by simp)
  | .error _, .ok _ => .isFalse (by simp)
  | .error x, .error y => if h : x = y then .isTrue (by rw [h]) else .isFalse (by simp [h])

/-- The `WidgetType` string enum. -/
inductive WidgetType where
  | metric | chart | table | list | gauge | text
  deriving DecidableEq

/-- The `.value` of a `WidgetType` enum member. -/
def WidgetType.value : WidgetType → String
  | .metric => "metric"
  | .chart => "chart"
  | .table => "table"
  | .list => "list"
  | .gauge => "gauge"
  | .text => "text"

/-- The `RefreshMode` string enum. -/
inductive RefreshMode where
  | manual | interval | realtime
  deriving DecidableEq

/-- Time instants / durations in seconds (models `datetime.now()` and
`timedelta.total_seconds()`). -/
abbrev Time := Int

/-- The `WidgetConfig` dataclass. -/
structure WidgetConfig where
  id : String
  type : WidgetType
  title : String
  data_source : DataSource
  refresh_interval : Int := 60
  refresh_mode : RefreshMode := .interval
  style : List (String × Val) := []
  options : List (String × Val) := []
  deriving DecidableEq

/-- The `WidgetData` dataclass: one refresh result. -/
structure WidgetData where
  widget_id : String
  data : Val
  timestamp : Time
  error : Option String := none
  deriving DecidableEq

/-- The `Widget` class: its config plus the mutable fields `_last_data` and
`_last_refresh`. -/
structure Widget where
  config : WidgetConfig
  last_data : Option WidgetData := none
  last_refresh : Option Time := none
  deriving DecidableEq

/-- `Widget.refresh`: invokes the data source; on success stores a fresh
`WidgetData` and advances `_last_refresh` to `now`; on an exception returns an
error-carrying `WidgetData` (data `None`, error `str(e)`) without touching the
stored state.  Returns (updated widget, returned `WidgetData`). -/
def Widget.refresh (w : Widget) (now : Time) : Widget × WidgetData :=
  match w.config.data_source with
  | .ok result =>
    let d : WidgetData := { widget_id := w.config.id, data := result, timestamp := now }
    ({ w with last_data := some d, last_refresh := some now }, d)
  | .error e =>
    (w, { widget_id := w.config.id, data := .vnone, timestamp := now, error := some e })

/-- `Widget.needs_refresh`: pure staleness predicate at clock reading `now`. -/
def Widget.needs_refresh (w : Widget) (now : Time) : Bool :=
  if w.config.refresh_mode = .manual then false
  else
    match w.last_refresh with
    | none => true
    | some t => decide (now - t ≥ w.config.refresh_interval)

/-- `Widget.get_data`: the last stored `WidgetData`, if any. -/
def Widget.get_data (w : Widget) : Option WidgetData :=
  w.last_data

/-- The record returned by `Widget.to_dict`. -/
structure WidgetDict where
  id : String
  type : String
  title : String
  data : Val
  timestamp : Option Time
  error : Option String
  options : List (String × Val)
  deriving DecidableEq

/-- `Widget.to_dict`: snapshot projection of the widget's current state. -/
def Widget.to_dict (w : Widget) : WidgetDict :=
  { id := w.config.id
    type := w.config.type.value
    title := w.config.title
    data := match w.last_data with | some d => d.data | none => .vnone
    timestamp := match w.last_data with | some d => some d.timestamp | none => none
    error := match w.last_data with | some d => d.error | none => none
    options := w.config.options }

/-- Insertion-ordered map update, following Python dict assignment semantics:
an existing key keeps its position, a new key is appended at the end. -/
def dictInsert {α : Type} (k : String) (v : α) : List (String × α) → List (String × α)
  | [] => [(k, v)]
  | (q, u) :: rest => if q = k then (k, v) :: rest else (q, u) :: dictInsert k v rest

/-- Python `dict.get`: first value bound to `k`, if any. -/
def dictGet {α : Type} (k : String) : List (String × α) → Option α
  | [] => none
  | (q, u) :: rest => if q = k then some u else dictGet k rest

/-- The `DashboardConfig` dataclass. -/
structure DashboardConfig where
  id : String
  name : String
  description : String := ""
  layout : List (List String) := []
  refresh_interval : Int := 60
  metadata : List (String × Val) := []
  deriving DecidableEq

/-- The `Dashboard` class: its config plus the insertion-ordered widget
mapping.  The mutual-exclusion lock guards mutations only and has no effect on
the sequential semantics modelled here. -/
structure Dashboard where
  config : DashboardConfig
  widgets : List (String × Widget) := []
  deriving DecidableEq

/-- `Dashboard.add_widget`: insert or replace, keyed by the widget's own id. -/
def Dashboard.add_widget (d : Dashboard) (w : Widget) : Dashboard :=
  { d with widgets := dictInsert w.config.id w d.widgets }

/-- `Dashboard.remove_widget`: remove if present; returns whether removal
happened. -/
def Dashboard.remove_widget (d : Dashboard) (widget_id : String) : Dashboard × Bool :=
  if (dictGet widget_id d.widgets).isSome then
    ({ d with widgets := d.widgets.filter (fun p => p.1 ≠ widget_id) }, true)
  else
    (d, false)

/-- One iteration of the `refresh_all` loop body:
`results[widget_id] = await widget.refresh()`, with the widget's in-place
mutation carried in the first accumulator component. -/
def refreshAllStep (now : Time)
    (acc : List (String × Widget) × List (String × WidgetData))
    (p : String × Widget) : List (String × Widget) × List (String × WidgetData) :=
  let r := p.2.refresh now
  (acc.1 ++ [(p.1, r.1)], dictInsert p.1 r.2 acc.2)

/-- `Dashboard.refresh_all`: sequentially refreshes every widget in mapping
iteration order; returns (updated dashboard, results mapping). -/
def Dashboard.refresh_all (d : Dashboard) (now : Time) :
    Dashboard × List (String × WidgetData) :=
  let out := d.widgets.foldl (refreshAllStep now) ([], [])
  ({ d with widgets := out.1 }, out.2)

/-- One iteration of the `refresh_stale` loop body: refresh only when
`widget.needs_refresh()`, otherwise leave the widget untouched and record
nothing. -/
def refreshStaleStep (now : Time)
    (acc : List (String × Widget) × List (String × WidgetData))
    (p : String × Widget) : List (String × Widget) × List (String × WidgetData) :=
  if p.2.needs_refresh now then
    let r := p.2.refresh now
    (acc.1 ++ [(p.1, r.1)], dictInsert p.1 r.2 acc.2)
  else
    (acc.1 ++ [p], acc.2)

/-- `Dashboard.refresh_stale`: like `refresh_all` but skips widgets whose
`needs_refresh()` is false; skipped widgets are absent from the results. -/
def Dashboard.refresh_stale (d : Dashboard) (now : Time) :
    Dashboard × List (String × WidgetData) :=
  let out := d.widgets.foldl (refreshStaleStep now) ([], [])
  ({ d with widgets := out.1 }, out.2)

/-- The record returned by `Dashboard.get_data`. -/
structure DashboardDict where
  id : String
  name : String
  widgets : List (String × WidgetDict)
  layout : List (List String)
  timestamp : Time
  deriving DecidableEq

/-- `Dashboard.get_data`: read-only snapshot of the dashboard. -/
def Dashboard.get_data (d : Dashboard) (now : Time) : DashboardDict :=
  { id := d.config.id
    name := d.config.name
    widgets := d.widgets.map (fun p => (p.1, p.2.to_dict))
    layout := d.config.layout
    timestamp := now }

/-- The `DashboardBuilder` class: pending config, ordered widget list, and the
pending `_layout`. -/
structure DashboardBuilder where
  config : DashboardConfig
  widgets : List Widget := []
  layout : List (List String) := []

/-- `DashboardBuilder.__init__`. -/
def DashboardBuilder.create (dashboard_id name : String) : DashboardBuilder :=
  { config := { id := dashboard_id, name := name } }

/-- `DashboardBuilder.description`. -/
def DashboardBuilder.description (b : DashboardBuilder) (desc : String) : DashboardBuilder :=
  { b with config := { b.config with description := desc } }

/-- `DashboardBuilder.metric`. -/
def DashboardBuilder.metric (b : DashboardBuilder) (widget_id title : String)
    (data_source : DataSource) (options : List (String × Val)) : DashboardBuilder :=
  { b with widgets := b.widgets ++
      [{ config := { id := widget_id, type := .metric, title := title,
                     data_source := data_source, options := options } }] }

/-- `DashboardBuilder.chart`: merges `chart_type` into the options bag. -/
def DashboardBuilder.chart (b : DashboardBuilder) (widget_id title : String)
    (data_source : DataSource) (chart_type : String)
    (options : List (String × Val)) : DashboardBuilder :=
  { b with widgets := b.widgets ++
      [{ config := { id := widget_id, type := .chart, title := title,
                     data_source := data_source,
                     options := dictInsert "chart_type" (.vstr chart_type) options } }] }

/-- `DashboardBuilder.table`. -/
def DashboardBuilder.table (b : DashboardBuilder) (widget_id title : String)
    (data_source : DataSource) (options : List (String × Val)) : DashboardBuilder :=
  { b with widgets := b.widgets ++
      [{ config := { id := widget_id, type := .table, title := title,
                     data_source := data_source, options := options } }] }

/-- `DashboardBuilder.gauge`: merges `min`/`max` bounds into the options bag. -/
def DashboardBuilder.gauge (b : DashboardBuilder) (widget_id title : String)
    (data_source : DataSource) (min_val max_val : Int)
    (options : List (String × Val)) : DashboardBuilder :=
  { b with widgets := b.widgets ++
      [{ config := { id := widget_id, type := .gauge, title := title,
                     data_source := data_source,
                     options := dictInsert "max" (.vint max_val)
                       (dictInsert "min" (.vint min_val) options) } }] }

/-- `DashboardBuilder.row`: appends one row of widget ids to the pending
layout. -/
def DashboardBuilder.row (b : DashboardBuilder) (widget_ids : List String) : DashboardBuilder :=
  { b with layout := b.layout ++ [widget_ids] }

/-- `DashboardBuilder.build`: finalizes the layout, constructs a `Dashboard`
and adds each accumulated widget to it in insertion order. -/
def DashboardBuilder.build (b : DashboardBuilder) : Dashboard :=
  b.widgets.foldl Dashboard.add_widget
    { config := { b.config with layout := b.layout } }

/-- The `DashboardManager` class: registry of dashboards plus the auto-refresh
run flag. -/
structure DashboardManager where
  dashboards : List (String × Dashboard) := []
  running : Bool := false
  deriving DecidableEq

/-- `DashboardManager.create`: a fresh builder seeded with the identity (does
not register anything). -/
def DashboardManager.create (_ : DashboardManager) (dashboard_id name : String) :
    DashboardBuilder :=
  DashboardBuilder.create dashboard_id name

/-- `DashboardManager.register`: insert or replace, keyed by the dashboard's
configured id. -/
def DashboardManager.register (m : DashboardManager) (d : Dashboard) : DashboardManager :=
  { m with dashboards := dictInsert d.config.id d m.dashboards }

/-- `DashboardManager.get`. -/
def DashboardManager.get (m : DashboardManager) (dashboard_id : String) : Option Dashboard :=
  dictGet dashboard_id m.dashboards

/-- `DashboardManager.refresh`: delegate to the dashboard's `refresh_all`, or
return the not-found result.  Returns (updated manager, Python return value). -/
def DashboardManager.refresh (m : DashboardManager) (dashboard_id : String) (now : Time) :
    DashboardManager × Option (List (String × WidgetData)) :=
  match dictGet dashboard_id m.dashboards with
  | some d =>
    let r := d.refresh_all now
    ({ m with dashboards := dictInsert dashboard_id r.1 m.dashboards }, some r.2)
  | none => (m, none)

/-- `DashboardManager.list_dashboards`: id/name summaries in registry
iteration order. -/
def DashboardManager.list_dashboards (m : DashboardManager) : List (String × String) :=
  m.dashboards.map (fun p => (p.1, p.2.config.name))

/-- `DashboardManager.get_data`: the dashboard snapshot, or the not-found
result. -/
def DashboardManager.get_data (m : DashboardManager) (dashboard_id : String) (now : Time) :
    Option DashboardDict :=
  match dictGet dashboard_id m.dashboards with
  | some d => some (d.get_data now)
  | none => none

/-- One call in a builder call sequence: the widget-add calls
(`metric`/`chart`/`table`/`gauge`) and `row`. -/
inductive BuildStep where
  | metric (widget_id title : String) (data_source : DataSource)
      (options : List (String × Val))
  | chart (widget_id title : String) (data_source : DataSource) (chart_type : String)
      (options : List (String × Val))
  | table (widget_id title : String) (data_source : DataSource)
      (options : List (String × Val))
  | gauge (widget_id title : String) (data_source : DataSource) (min_val max_val : Int)
      (options : List (String × Val))
  | row (widget_ids : List String)

/-- Interpret one builder call. -/
def DashboardBuilder.apply (b : DashboardBuilder) : BuildStep → DashboardBuilder
  | .metric i t s o => b.metric i t s o
  | .chart i t s c o => b.chart i t s c o
  | .table i t s o => b.table i t s o
  | .gauge i t s lo hi o => b.gauge i t s lo hi o
  | .row ids => b.row ids

/-- Interpret a sequence of builder calls in order. -/
def DashboardBuilder.applyAll (b : DashboardBuilder) (steps : List BuildStep) :
    DashboardBuilder :=
  steps.foldl DashboardBuilder.apply b

/-- The widget ids added by the widget-add calls of a sequence, in call order. -/
def stepsWidgetIds : List BuildStep → List String
  | [] => []
  | .metric i _ _ _ :: rest => i :: stepsWidgetIds rest
  | .chart i _ _ _ _ :: rest => i :: stepsWidgetIds rest
  | .table i _ _ _ :: rest => i :: stepsWidgetIds rest
  | .gauge i _ _ _ _ _ :: rest => i :: stepsWidgetIds rest
  | .row _ :: rest => stepsWidgetIds rest

/-- The rows laid out by the `row` calls of a sequence, in call order. -/
def stepsRows : List BuildStep → List (List String)
  | [] => []
  | .metric _ _ _ _ :: rest => stepsRows rest
  | .chart _ _ _ _ _ :: rest => stepsRows rest
  | .table _ _ _ _ :: rest => stepsRows rest
  | .gauge _ _ _ _ _ _ :: rest => stepsRows rest
  | .row ids :: rest => ids :: stepsRows rest

/-- Inserting a key that is not yet bound appends the pair at the end. -/
theorem dictInsert_of_not_mem {α : Type} (k : String) (v : α) (l : List (String × α))
    (h : k ∉ l.map Prod.fst) : dictInsert k v l = l ++ [(k, v)] := by
  induction l with
  | nil => rfl
  | cons p rest ih =>
    obtain ⟨q, u⟩ := p
    have hq : ¬ q = k := by
      intro hh
      exact h (by simp [hh])
    have hrest : k ∉ rest.map Prod.fst := by
      intro hh
      exact h (by simp [hh])
    simp [dictInsert, hq, ih hrest]

/-- Each builder call appends exactly its own widget ids. -/
theorem apply_widget_ids (b : DashboardBuilder) (s : BuildStep) :
    (b.apply s).widgets.map (fun w => w.config.id) =
      b.widgets.map (fun w => w.config.id) ++ stepsWidgetIds [s] := by
  cases s <;>
    simp [DashboardBuilder.apply, DashboardBuilder.metric, DashboardBuilder.chart,
      DashboardBuilder.table, DashboardBuilder.gauge, DashboardBuilder.row, stepsWidgetIds]

/-- Each builder call appends exactly its own rows. -/
theorem apply_layout (b : DashboardBuilder) (s : BuildStep) :
    (b.apply s).layout = b.layout ++ stepsRows [s] := by
  cases s <;>
    simp [DashboardBuilder.apply, DashboardBuilder.metric, DashboardBuilder.chart,
      DashboardBuilder.table, DashboardBuilder.gauge, DashboardBuilder.row, stepsRows]

/-- No builder call of a sequence touches the pending config record. -/
theorem apply_config (b : DashboardBuilder) (s : BuildStep) :
    (b.apply s).config = b.config := by
  cases s <;>
    simp [DashboardBuilder.apply, DashboardBuilder.metric, DashboardBuilder.chart,
      DashboardBuilder.table, DashboardBuilder.gauge, DashboardBuilder.row]

/-- A builder call sequence appends its widget ids in call order. -/
theorem applyAll_widget_ids (steps : List BuildStep) (b : DashboardBuilder) :
    (b.applyAll steps).widgets.map (fun w => w.config.id) =
      b.widgets.map (fun w => w.config.id) ++ stepsWidgetIds steps := by
  induction steps generalizing b with
  | nil => simp [DashboardBuilder.applyAll, stepsWidgetIds]
  | cons s rest ih =>
    have hstep : b.applyAll (s :: rest) = (b.apply s).applyAll rest := rfl
    rw [hstep, ih, apply_widget_ids]
    cases s <;> simp [stepsWidgetIds]

/-- A builder call sequence appends its rows in call order. -/
theorem applyAll_layout (steps : List BuildStep) (b : DashboardBuilder) :
    (b.applyAll steps).layout = b.layout ++ stepsRows steps := by
  induction steps generalizing b with
  | nil => simp [DashboardBuilder.applyAll, stepsRows]
  | cons s rest ih =>
    have hstep : b.applyAll (s :: rest) = (b.apply s).applyAll rest := rfl
    rw [hstep, ih, apply_layout]
    cases s <;> simp [stepsRows]

/-- A builder call sequence leaves the pending config record unchanged. -/
theorem applyAll_config (steps : List BuildStep) (b : DashboardBuilder) :
    (b.applyAll steps).config = b.config := by
  induction steps generalizing b with
  | nil => rfl
  | cons s rest ih =>
    have hstep : b.applyAll (s :: rest) = (b.apply s).applyAll rest := rfl
    rw [hstep, ih, apply_config]

/-- Folding `add_widget` over widgets with globally fresh, pairwise-distinct
ids appends each widget keyed by its own id, in order. -/
theorem foldl_add_widget (ws : List Widget) (d : Dashboard)
    (hnd : (d.widgets.map Prod.fst ++ ws.map (fun w => w.config.id)).Nodup) :
    (ws.foldl Dashboard.add_widget d).widgets =
      d.widgets ++ ws.map (fun w => (w.config.id, w)) := by
  induction ws generalizing d with
  | nil => simp
  | cons w rest ih =>
    have hsplit := List.nodup_append.mp hnd
    have hmem : w.config.id ∉ d.widgets.map Prod.fst := by
      intro hin
      exact hsplit.2.2 hin (by simp)
    have hins : (d.add_widget w).widgets = d.widgets ++ [(w.config.id, w)] := by
      simp [Dashboard.add_widget, dictInsert_of_not_mem _ _ _ hmem]
    have hnd2 : ((d.add_widget w).widgets.map Prod.fst ++
        rest.map (fun w => w.config.id)).Nodup := by
      rw [hins, List.map_append, List.append_assoc]
      simpa using hnd
    have hfold : ((w :: rest).foldl Dashboard.add_widget d) =
        rest.foldl Dashboard.add_widget (d.add_widget w) := rfl
    rw [hfold, ih _ hnd2, hins]
    simp

/-- Folding `add_widget` does not change the dashboard config. -/
theorem foldl_add_widget_config (ws : List Widget) (d : Dashboard) :
    (ws.foldl Dashboard.add_widget d).config = d.config := by
  induction ws generalizing d with
  | nil => rfl
  | cons w rest ih =>
    have hfold : ((w :: rest).foldl Dashboard.add_widget d) =
        rest.foldl Dashboard.add_widget (d.add_widget w) := rfl
    rw [hfold, ih]
    rfl

/-- Characterization of the `refresh_all` loop: starting from accumulators
whose result keys avoid the remaining (pairwise-distinct) widget ids, the
pass refreshes every widget in order and appends every result in order. -/
theorem foldl_refreshAllStep (now : Time) (l : List (String × Widget))
    (a1 : List (String × Widget)) (a2 : List (String × WidgetData))
    (hnd : (a2.map Prod.fst ++ l.map Prod.fst).Nodup) :
    l.foldl (refreshAllStep now) (a1, a2) =
      (a1 ++ l.map (fun p => (p.1, (p.2.refresh now).1)),
       a2 ++ l.map (fun p => (p.1, (p.2.refresh now).2))) := by
  induction l generalizing a1 a2 with
  | nil => simp
  | cons p rest ih =>
    obtain ⟨wid, w⟩ := p
    have hsplit := List.nodup_append.mp hnd
    have hmem : wid ∉ a2.map Prod.fst := fun hin => hsplit.2.2 hin (by simp)
    have hstep : refreshAllStep now (a1, a2) (wid, w) =
        (a1 ++ [(wid, (w.refresh now).1)], a2 ++ [(wid, (w.refresh now).2)]) := by
      simp [refreshAllStep, dictInsert_of_not_mem _ _ _ hmem]
    have hnd2 : ((a2 ++ [(wid, (w.refresh now).2)]).map Prod.fst ++
        rest.map Prod.fst).Nodup := by
      rw [List.map_append, List.append_assoc]
      simpa using hnd
    have hfold : (((wid, w) :: rest).foldl (refreshAllStep now) (a1, a2)) =
        rest.foldl (refreshAllStep now) (refreshAllStep now (a1, a2) (wid, w)) := rfl
    rw [hfold, hstep, ih _ _ hnd2]
    simp

/-- Characterization of the `refresh_stale` loop: due widgets are refreshed
and reported in order, the others pass through untouched and unreported. -/
theorem foldl_refreshStaleStep (now : Time) (l : List (String × Widget))
    (a1 : List (String × Widget)) (a2 : List (String × WidgetData))
    (hnd : (a2.map Prod.fst ++ l.map Prod.fst).Nodup) :
    l.foldl (refreshStaleStep now) (a1, a2) =
      (a1 ++ l.map (fun p =>
         if p.2.needs_refresh now then (p.1, (p.2.refresh now).1) else p),
       a2 ++ (l.filter (fun p => p.2.needs_refresh now)).map
         (fun p => (p.1, (p.2.refresh now).2))) := by
  induction l generalizing a1 a2 with
  | nil => simp
  | cons p rest ih =>
    obtain ⟨wid, w⟩ := p
    have hsplit := List.nodup_append.mp hnd
    have hmem : wid ∉ a2.map Prod.fst := fun hin => hsplit.2.2 hin (by simp)
    have hfold : (((wid, w) :: rest).foldl (refreshStaleStep now) (a1, a2)) =
        rest.foldl (refreshStaleStep now) (refreshStaleStep now (a1, a2) (wid, w)) := rfl
    by_cases hc : w.needs_refresh now = true
    · have hstep : refreshStaleStep now (a1, a2) (wid, w) =
          (a1 ++ [(wid, (w.refresh now).1)], a2 ++ [(wid, (w.refresh now).2)]) := by
        simp [refreshStaleStep, hc, dictInsert_of_not_mem _ _ _ hmem]
      have hnd2 : ((a2 ++ [(wid, (w.refresh now).2)]).map Prod.fst ++
          rest.map Prod.fst).Nodup := by
        rw [List.map_append, List.append_assoc]
        simpa using hnd
      rw [hfold, hstep, ih _ _ hnd2]
      simp [hc]
    · have hstep : refreshStaleStep now (a1, a2) (wid, w) = (a1 ++ [(wid, w)], a2) := by
        simp [refreshStaleStep, hc]
      have hnd2 : (a2.map Prod.fst ++ rest.map Prod.fst).Nodup := by
        have hall : (a2.map Prod.fst ++ (wid :: rest.map Prod.fst)).Nodup := by
          simpa using hnd
        have hsub : List.Sublist (a2.map Prod.fst ++ rest.map Prod.fst)
            (a2.map Prod.fst ++ (wid :: rest.map Prod.fst)) :=
          (List.append_sublist_append_left _).mpr (List.sublist_cons_self wid _)
        exact hall.sublist hsub
      rw [hfold, hstep, ih _ _ hnd2]
      simp [hc]

/-- A data source that always raises (with `str(e) = "boom"`). -/
def boomSource : DataSource := .error "boom"

/-- A widget over a raising data source, never refreshed. -/
def failWidget : Widget :=
  { config := { id := "w1", type := .metric, title := "Failing", data_source := boomSource } }

/-- A widget over a succeeding data source. -/
def okWidget : Widget :=
  { config := { id := "w2", type := .metric, title := "Ok", data_source := .ok (.vint 5) } }

/-- A manual-mode widget. -/
def manualWidget : Widget :=
  { config := { id := "m", type := .text, title := "Manual", data_source := .ok (.vint 1),
                refresh_mode := .manual } }

/-- A realtime-mode widget last refreshed at time 100 (interval 60). -/
def rtWidget : Widget :=
  { config := { id := "rt", type := .gauge, title := "RT", data_source := .ok (.vint 1),
                refresh_mode := .realtime },
    last_refresh := some 100 }

/-- Widgets A (succeeds), B (fails), C (succeeds) in one dashboard: the
failure-isolation scenario. -/
def widgetA : Widget :=
  { config := { id := "A", type := .metric, title := "A", data_source := .ok (.vint 1) } }

/-- Widget B of the failure-isolation scenario. -/
def widgetB : Widget :=
  { config := { id := "B", type := .metric, title := "B", data_source := .error "boom" } }

/-- Widget C of the failure-isolation scenario. -/
def widgetC : Widget :=
  { config := { id := "C", type := .metric, title := "C", data_source := .ok (.vint 3) } }

/-- The dashboard holding widgets A, B, C. -/
def dashABC : Dashboard :=
  { config := { id := "d1", name := "Demo" },
    widgets := [("A", widgetA), ("B", widgetB), ("C", widgetC)] }

/-- An empty manager registry. -/
def emptyManager : DashboardManager := {}

/-- Claim C1: `refresh` never propagates a data-source exception to its
caller: it always returns a `WidgetData`; when the source raised `e` the
result has `data = None` and the non-null error string `str(e)`, and when the
source returned a value the result carries it with `error = None` — success
or failure is expressed only through the `error` field. -/
theorem refresh_never_raises (w : Widget) (now : Time) :
    (∀ e, w.config.data_source = .error e →
      (w.refresh now).2.data = .vnone ∧ (w.refresh now).2.error = some e) ∧
    (∀ v, w.config.data_source = .ok v →
      (w.refresh now).2.data = v ∧ (w.refresh now).2.error = none) := by
  constructor
  · intro e he
    simp [Widget.refresh, he]
  · intro v hv
    simp [Widget.refresh, hv]

/-- Concrete instance of the C1 theorem at a raising widget and a succeeding
widget. -/
theorem refresh_never_raises_witness :
    ((failWidget.refresh 100).2.data = .vnone ∧
      (failWidget.refresh 100).2.error = some "boom") ∧
    ((okWidget.refresh 100).2.data = .vint 5 ∧
      (okWidget.refresh 100).2.error = none) :=
  ⟨(refresh_never_raises failWidget 100).1 "boom" rfl,
   (refresh_never_raises okWidget 100).2 (.vint 5) rfl⟩

/-- Claim C2 as stated is false at `failWidget`: after the failed refresh the
error-carrying result is not stored as the widget's last data and the
last-refresh timestamp is not advanced to the attempt time. -/
theorem refresh_failure_updates_state_cex :
    ¬ ((failWidget.refresh 100).1.last_data = some ((failWidget.refresh 100).2) ∧
       (failWidget.refresh 100).1.last_refresh = some 100) := by
  decide

/-- Claim C2 amended: a refresh whose data source raises leaves the widget's
stored last data and last-refresh timestamp unchanged — failed attempts do
not advance the staleness clock consulted by `needs_refresh`. -/
theorem refresh_failure_preserves_state (w : Widget) (now : Time) (e : String)
    (h : w.config.data_source = .error e) :
    (w.refresh now).1.last_data = w.last_data ∧
    (w.refresh now).1.last_refresh = w.last_refresh := by
  simp [Widget.refresh, h]

/-- Concrete instance of the amended C2 theorem. -/
theorem refresh_failure_preserves_state_witness :
    (failWidget.refresh 100).1.last_data = failWidget.last_data ∧
    (failWidget.refresh 100).1.last_refresh = failWidget.last_refresh :=
  refresh_failure_preserves_state failWidget 100 "boom" rfl

/-- Claim C3 as stated is false at `failWidget`: after its (only and thus
most recent) refresh attempt failed, its snapshot record carries a null
error, not a populated error string. -/
theorem failed_widget_snapshot_cex :
    ¬ ((failWidget.refresh 100).1.to_dict.data = .vnone ∧
       ((failWidget.refresh 100).1.to_dict.error ≠ none)) := by
  decide

/-- Claim C3 amended: a widget whose refresh attempt failed still appears in
snapshots — every widget id keeps an entry in `Dashboard.get_data` — but its
snapshot record is unchanged from before the failed attempt: it shows the
previously stored data and error (null data and null error when never
successfully refreshed), not the failed attempt's error. -/
theorem failed_widget_snapshot (w : Widget) (d : Dashboard) (now t : Time) (e : String)
    (h : w.config.data_source = .error e) :
    (w.refresh now).1.to_dict = w.to_dict ∧
    (d.get_data t).widgets.map Prod.fst = d.widgets.map Prod.fst := by
  have hw : (w.refresh now).1 = w := by simp [Widget.refresh, h]
  refine ⟨by rw [hw], ?_⟩
  simp [Dashboard.get_data]

/-- Concrete instance of the amended C3 theorem. -/
theorem failed_widget_snapshot_witness :
    (failWidget.refresh 100).1.to_dict = failWidget.to_dict ∧
    (dashABC.get_data 100).widgets.map Prod.fst = dashABC.widgets.map Prod.fst :=
  failed_widget_snapshot failWidget dashABC 100 100 "boom" rfl

/-- Claim C4: `needs_refresh` is a pure predicate of the widget state and the
clock: false in manual mode regardless of elapsed time; true when never
refreshed (in a non-manual mode); otherwise true iff the elapsed seconds
since the last refresh reach `refresh_interval`. -/
theorem needs_refresh_spec (w : Widget) (now : Time) :
    (w.config.refresh_mode = .manual → w.needs_refresh now = false) ∧
    (w.config.refresh_mode ≠ .manual → w.last_refresh = none →
      w.needs_refresh now = true) ∧
    (∀ t, w.config.refresh_mode ≠ .manual → w.last_refresh = some t →
      (w.needs_refresh now = true ↔ w.config.refresh_interval ≤ now - t)) := by
  refine ⟨?_, ?_, ?_⟩
  · intro hm
    simp [Widget.needs_refresh, hm]
  · intro hm hn
    simp [Widget.needs_refresh, hm, hn]
  · intro t hm ht
    simp [Widget.needs_refresh, hm, ht, ge_iff_le]

/-- Concrete instance of the C4 theorem: a manual widget long overdue, a
never-refreshed widget, and an interval comparison. -/
theorem needs_refresh_spec_witness :
    manualWidget.needs_refresh 1000000 = false ∧
    failWidget.needs_refresh 1000 = true ∧
    (rtWidget.needs_refresh 130 = true ↔ rtWidget.config.refresh_interval ≤ 130 - 100) :=
  ⟨(needs_refresh_spec manualWidget 1000000).1 rfl,
   (needs_refresh_spec failWidget 1000).2.1 (by decide) rfl,
   (needs_refresh_spec rtWidget 130).2.2 100 (by decide) rfl⟩

/-- Claim C5 as stated is false at `rtWidget`: a realtime widget refreshed
zero seconds ago (interval 60) is not reported due. -/
theorem realtime_always_due_cex : ¬ (rtWidget.needs_refresh 100 = true) := by
  decide

/-- Claim C5 amended: realtime mode gets no special handling — a realtime
widget is due iff it was never refreshed or the elapsed seconds reach
`refresh_interval`, exactly the interval-mode check. -/
theorem realtime_interval_check (w : Widget) (now : Time)
    (hm : w.config.refresh_mode = .realtime) :
    (w.last_refresh = none → w.needs_refresh now = true) ∧
    (∀ t, w.last_refresh = some t →
      (w.needs_refresh now = true ↔ w.config.refresh_interval ≤ now - t)) := by
  constructor
  · intro hn
    simp [Widget.needs_refresh, hm, hn]
  · intro t ht
    simp [Widget.needs_refresh, hm, ht, ge_iff_le]

/-- Concrete instance of the amended C5 theorem. -/
theorem realtime_interval_check_witness :
    rtWidget.needs_refresh 160 = true ↔ rtWidget.config.refresh_interval ≤ 160 - 100 :=
  (realtime_interval_check rtWidget 160 rfl).2 100 rfl

/-- Claim C9: for a dashboard id absent from the registry, `get`, `refresh`
and `get_data` each return the not-found result `None` without raising, and
the manager (its registry included) is unchanged. -/
theorem manager_missing_id (m : DashboardManager) (dashboard_id : String) (now : Time)
    (h : dictGet dashboard_id m.dashboards = none) :
    m.get dashboard_id = none ∧
    m.refresh dashboard_id now = (m, none) ∧
    m.get_data dashboard_id now = none := by
  refine ⟨h, ?_, ?_⟩
  · simp [DashboardManager.refresh, h]
  · simp [DashboardManager.get_data, h]

/-- Concrete instance of the C9 theorem at an empty registry. -/
theorem manager_missing_id_witness :
    emptyManager.get "missing" = none ∧
    emptyManager.refresh "missing" 0 = (emptyManager, none) ∧
    emptyManager.get_data "missing" 0 = none :=
  manager_missing_id emptyManager "missing" 0 rfl

/-- Claim C10: refresh is atomic on error — when the data source raises, the
error-carrying `WidgetData` is returned but never stored: the widget is
unchanged, `get_data` returns the same value as before the call, and the
staleness clock consulted by `needs_refresh` is not advanced. -/
theorem refresh_failure_atomic (w : Widget) (now t : Time) (e : String)
    (h : w.config.data_source = .error e) :
    (w.refresh now).1 = w ∧
    (w.refresh now).1.get_data = w.get_data ∧
    (w.refresh now).1.needs_refresh t = w.needs_refresh t ∧
    (w.refresh now).2.error = some e := by
  have hw : (w.refresh now).1 = w := by simp [Widget.refresh, h]
  refine ⟨hw, by rw [hw], by rw [hw], by simp [Widget.refresh, h]⟩

/-- Concrete instance of the C10 theorem. -/
theorem refresh_failure_atomic_witness :
    (failWidget.refresh 100).1 = failWidget ∧
    (failWidget.refresh 100).1.get_data = failWidget.get_data ∧
    (failWidget.refresh 100).1.needs_refresh 200 = failWidget.needs_refresh 200 ∧
    (failWidget.refresh 100).2.error = some "boom" :=
  refresh_failure_atomic failWidget 100 200 "boom" rfl

/-- Claim C6: `refresh_all` refreshes every widget sequentially in the widget
mapping's iteration order regardless of staleness; the returned mapping has
one entry per widget id, in that order, and each entry is that widget's own
refresh outcome — so one widget's data-source failure never aborts or alters
the refresh of the remaining widgets. -/
theorem refresh_all_results (d : Dashboard) (now : Time)
    (hnd : (d.widgets.map Prod.fst).Nodup) :
    (d.refresh_all now).2 = d.widgets.map (fun p => (p.1, (p.2.refresh now).2)) ∧
    (d.refresh_all now).2.map Prod.fst = d.widgets.map Prod.fst ∧
    (d.refresh_all now).1.widgets = d.widgets.map (fun p => (p.1, (p.2.refresh now).1)) := by
  have h := foldl_refreshAllStep now d.widgets [] [] (by simpa using hnd)
  refine ⟨?_, ?_, ?_⟩
  · simp [Dashboard.refresh_all, h]
  · simp [Dashboard.refresh_all, h, List.map_map, Function.comp]
  · simp [Dashboard.refresh_all, h]

/-- Concrete instance of the C6 theorem on the A/B/C dashboard: all three ids
are reported, B carries an error, A and C carry data. -/
theorem refresh_all_results_witness :
    (dashABC.widgets.map Prod.fst).Nodup ∧
    (dashABC.refresh_all 100).2 =
      [("A", { widget_id := "A", data := .vint 1, timestamp := 100 }),
       ("B", { widget_id := "B", data := .vnone, timestamp := 100, error := some "boom" }),
       ("C", { widget_id := "C", data := .vint 3, timestamp := 100 })] := by
  refine ⟨by decide, ?_⟩
  rw [(refresh_all_results dashABC 100 (by decide)).1]
  rfl

/-- A manual-mode widget of the stale-refresh scenario (never due). -/
def widgetA2 : Widget :=
  { config := { id := "A2", type := .metric, title := "A2", data_source := .ok (.vint 1),
                refresh_mode := .manual } }

/-- A never-refreshed interval widget of the stale-refresh scenario (due). -/
def widgetB2 : Widget :=
  { config := { id := "B2", type := .metric, title := "B2", data_source := .ok (.vint 2) } }

/-- A recently refreshed interval widget of the stale-refresh scenario (10 of
60 seconds elapsed, not due). -/
def widgetC2 : Widget :=
  { config := { id := "C2", type := .metric, title := "C2", data_source := .ok (.vint 3) },
    last_data := some { widget_id := "C2", data := .vint 9, timestamp := 90 },
    last_refresh := some 90 }

/-- The dashboard of the stale-refresh scenario: at time 100 only "B2" is
due. -/
def dashStale : Dashboard :=
  { config := { id := "d2", name := "Stale" },
    widgets := [("A2", widgetA2), ("B2", widgetB2), ("C2", widgetC2)] }

/-- Claim C7: `refresh_stale` refreshes exactly the widgets whose
`needs_refresh` is true — the returned mapping is the in-order refresh
outcomes of precisely those widgets — and any widget not due is absent from
the result and kept in the mapping with its stored state unchanged. -/
theorem refresh_stale_results (d : Dashboard) (now : Time) (p : String × Widget)
    (hnd : (d.widgets.map Prod.fst).Nodup) (hp : p ∈ d.widgets) :
    (d.refresh_stale now).2 =
      (d.widgets.filter (fun q => q.2.needs_refresh now)).map
        (fun q => (q.1, (q.2.refresh now).2)) ∧
    (p.2.needs_refresh now = false → p ∈ (d.refresh_stale now).1.widgets) := by
  have h := foldl_refreshStaleStep now d.widgets [] [] (by simpa using hnd)
  constructor
  · simp [Dashboard.refresh_stale, h]
  · intro hfalse
    have hw : (d.refresh_stale now).1.widgets =
        d.widgets.map (fun q =>
          if q.2.needs_refresh now then (q.1, (q.2.refresh now).1) else q) := by
      simp [Dashboard.refresh_stale, h]
    rw [hw]
    have hfix : (if p.2.needs_refresh now then (p.1, (p.2.refresh now).1) else p) = p := by
      simp [hfalse]
    exact hfix ▸ List.mem_map_of_mem _ hp

/-- Concrete instance of the C7 theorem on `dashStale`: only "B2" is reported
and the skipped "C2" keeps its stored data. -/
theorem refresh_stale_results_witness :
    (dashStale.widgets.map Prod.fst).Nodup ∧
    ("C2", widgetC2) ∈ dashStale.widgets ∧
    (dashStale.refresh_stale 100).2 =
      [("B2", { widget_id := "B2", data := .vint 2, timestamp := 100 })] ∧
    ("C2", widgetC2) ∈ (dashStale.refresh_stale 100).1.widgets := by
  have h := refresh_stale_results dashStale 100 ("C2", widgetC2) (by decide) (by decide)
  refine ⟨by decide, by decide, ?_, h.2 (by decide)⟩
  rw [h.1]
  rfl

/-- Claim C8: for every sequence of builder widget-add calls with
pairwise-distinct widget ids interleaved with `row` calls, `build` yields a
dashboard whose `get_data` layout is exactly the rows in call order and whose
widget mapping keys are exactly the added widget ids (in call order). -/
theorem builder_round_trip (did dname : String) (steps : List BuildStep) (now : Time)
    (h : (stepsWidgetIds steps).Nodup) :
    ((((DashboardBuilder.create did dname).applyAll steps).build).get_data now).layout =
      stepsRows steps ∧
    (((DashboardBuilder.create did dname).applyAll steps).build).widgets.map Prod.fst =
      stepsWidgetIds steps := by
  have hw : ((DashboardBuilder.create did dname).applyAll steps).widgets.map
      (fun w => w.config.id) = stepsWidgetIds steps := by
    simpa [DashboardBuilder.create] using
      applyAll_widget_ids steps (DashboardBuilder.create did dname)
  have hl : ((DashboardBuilder.create did dname).applyAll steps).layout = stepsRows steps := by
    simpa [DashboardBuilder.create] using
      applyAll_layout steps (DashboardBuilder.create did dname)
  have hfold := foldl_add_widget
    ((DashboardBuilder.create did dname).applyAll steps).widgets
    { config := { ((DashboardBuilder.create did dname).applyAll steps).config with
        layout := ((DashboardBuilder.create did dname).applyAll steps).layout } }
    (by simpa [hw] using h)
  have hcfg := foldl_add_widget_config
    ((DashboardBuilder.create did dname).applyAll steps).widgets
    { config := { ((DashboardBuilder.create did dname).applyAll steps).config with
        layout := ((DashboardBuilder.create did dname).applyAll steps).layout } }
  constructor
  · show (((DashboardBuilder.create did dname).applyAll steps).build).config.layout =
      stepsRows steps
    rw [DashboardBuilder.build, hcfg]
    exact hl
  · rw [DashboardBuilder.build, hfold]
    simp only [List.nil_append, List.map_map]
    exact hw

/-- Concrete builder call sequence of the round-trip scenario: metric
widgets "users" and "revenue", a chart "chart", and two rows. -/
def demoSteps : List BuildStep :=
  [.metric "users" "Total Users" (.ok (.vint 1234)) [],
   .metric "revenue" "Revenue" (.ok (.vint 98765)) [],
   .chart "chart" "Sales Over Time" (.ok (.vint 7)) "line" [],
   .row ["users", "revenue"],
   .row ["chart"]]

/-- Concrete instance of the C8 theorem on `demoSteps`. -/
theorem builder_round_trip_witness :
    (stepsWidgetIds demoSteps).Nodup ∧
    ((((DashboardBuilder.create "main" "Main Dashboard").applyAll demoSteps).build).get_data
        0).layout = [["users", "revenue"], ["chart"]] ∧
    ((((DashboardBuilder.create "main" "Main Dashboard").applyAll demoSteps).build).widgets.map
        Prod.fst) = ["users", "revenue", "chart"] := by
  have h := builder_round_trip "main" "Main Dashboard" demoSteps 0 (by decide)
  exact ⟨by decide, h.1, h.2⟩

end RoadDashboard
